import Mathlib

/-!
Verification of the nbo-linkedin-api lookup cascade and cookie/rate-limit
scraping coordinator.  Python sources are shallowly embedded: pure string
manipulation is translated to executable Lean functions over `List Char`
(mirroring Python `str` semantics for `split`, `strip`, `lower`,
substring tests), stateful components thread their persisted state
explicitly, and external collaborators (job runner, text-completion
service, search backends, database) are parameters of the embedded
functions (`Except`-valued when the Python call can raise).
-/

namespace Nbo

/-! ### Python string primitives (on `List Char`) -/

/-- Python `sub in s`: `pat` occurs as a contiguous sublist of `s`. -/
def isSubList (pat : List Char) : List Char → Bool
  | [] => pat.isEmpty
  | c :: rest => pat.isPrefixOf (c :: rest) || isSubList pat rest

/-- Python `pat in s` on strings (substring containment). -/
def strContainsSub (s pat : String) : Bool :=
  isSubList pat.data s.data

/-- Python `c in s` for a single character. -/
def pyInStr (c : Char) (s : String) : Bool :=
  s.data.contains c

/-- Python `s.lower()` (ASCII-adequate, character by character). -/
def lowerStr (s : String) : String :=
  ⟨s.data.map Char.toLower⟩

/-- Python `s.split(sep)` for a one-character separator: splits at every
occurrence, keeping empty pieces, result always non-empty. -/
def splitOnChar (c : Char) : List Char → List (List Char)
  | [] => [[]]
  | x :: xs =>
    match splitOnChar c xs with
    | [] => [[]]
    | h :: t => if x = c then [] :: h :: t else (x :: h) :: t

/-- Python `s.split(sep)` on strings (single-character separator). -/
def pySplit (s : String) (c : Char) : List String :=
  (splitOnChar c s.data).map (fun l => ⟨l⟩)

theorem splitOnChar_ne_nil (c : Char) (l : List Char) : splitOnChar c l ≠ [] := by
  cases l with
  | nil => simp [splitOnChar]
  | cons x xs =>
    simp only [splitOnChar]
    rcases h : splitOnChar c xs with _ | ⟨h₁, t⟩
    · simp
    · by_cases hx : x = c <;> simp [hx]

theorem pySplit_ne_nil (s : String) (c : Char) : pySplit s c ≠ [] := by
  simp only [pySplit, ne_eq, List.map_eq_nil_iff]
  exact splitOnChar_ne_nil c s.data

/-- Python `s.strip()`: drop whitespace from both ends. -/
def pyStrip (s : String) : String :=
  ⟨((s.data.dropWhile Char.isWhitespace).reverse.dropWhile Char.isWhitespace).reverse⟩

/-- Python `s.capitalize()`: first character uppercased, the rest lowercased. -/
def pyCapitalize (s : String) : String :=
  match s.data with
  | [] => ""
  | c :: rest => ⟨c.toUpper :: rest.map Char.toLower⟩

/-- Python `s.isspace()`: non-empty and all whitespace. -/
def pyIsSpace (s : String) : Bool :=
  !s.data.isEmpty && s.data.all Char.isWhitespace

/-- Python `s.isalpha()` on a character list segment. -/
def pyIsAlpha (l : List Char) : Bool :=
  !l.isEmpty && l.all Char.isAlpha

/-- Python `s.isdigit()`-style test used by `re.match(r'^[0-9]+$', s)`. -/
def allDigits (s : String) : Bool :=
  !s.data.isEmpty && s.data.all Char.isDigit

/-- Python truthiness of an optional string (None and "" are falsy). -/
def pyTruthy : Option String → Bool
  | none => false
  | some s => s ≠ ""

/-- Python `s.split()` (no argument): split on whitespace runs, dropping
empty pieces. -/
def pySplitWs (s : String) : List String :=
  (s.split Char.isWhitespace).filter (fun p => p ≠ "")

/-- Python `' '.join(parts)` generalized to any separator. -/
def pyJoin (sep : String) : List String → String
  | [] => ""
  | [x] => x
  | x :: y :: rest => x ++ sep ++ pyJoin sep (y :: rest)

/-! ### services/cookie_usage_tracker.py — CookieUsageTracker

The tracker persists a JSON file `{date, usage: {main, backup, personal}}`.
The persisted store is modelled as `Option UsageData` (`none` = file absent
or unreadable).  `daily_limit = 500`.  `check_rate_limit` reads but never
writes the store; `increment_usage` writes it back.
-/

/-- The persisted usage record of `cookie_usage_tracker.py`. -/
structure UsageData where
  date : String
  main : Nat
  backup : Nat
  personal : Nat
  deriving Repr, DecidableEq

def cookieNames : List String := ["main", "backup", "personal"]

def dailyLimit : Nat := 500

/-- `data["usage"].get(cookie_name, 0)`. -/
def UsageData.getUsage (d : UsageData) (name : String) : Nat :=
  if name = "main" then d.main
  else if name = "backup" then d.backup
  else if name = "personal" then d.personal
  else 0

/-- `data["usage"][cookie_name] = v`. -/
def UsageData.setUsage (d : UsageData) (name : String) (v : Nat) : UsageData :=
  if name = "main" then { d with main := v }
  else if name = "backup" then { d with backup := v }
  else if name = "personal" then { d with personal := v }
  else d

/-- `CookieUsageTracker._create_fresh_data(today)`. -/
def createFreshData (today : String) : UsageData :=
  { date := today, main := 0, backup := 0, personal := 0 }

/-- `CookieUsageTracker._load_usage_data`: reload the persisted file; if
its date stamp differs from today (or the file is absent/unreadable),
return fresh all-zero data for today.  The reset is not written back. -/
def loadUsageData (store : Option UsageData) (today : String) : UsageData :=
  match store with
  | some d => if d.date ≠ today then createFreshData today else d
  | none => createFreshData today

/-- `CookieUsageTracker.check_rate_limit(cookie_name, requested_count)`:
returns `(is_allowed, remaining)`; remaining may be negative (Python int).
Performs no write to the store. -/
def checkRateLimit (store : Option UsageData) (today : String)
    (cookieName : String) (requestedCount : Nat) : Bool × Int :=
  if cookieName ∉ cookieNames then (false, 0)
  else
    let usageData := loadUsageData store today
    let currentUsage := usageData.getUsage cookieName
    let remaining : Int := (dailyLimit : Int) - currentUsage
    if (requestedCount : Int) > remaining then (false, remaining)
    else (true, remaining)

/-- `CookieUsageTracker.increment_usage(cookie_name, count)`: bump the
counter, write the store back, return `max 0 remaining`. -/
def incrementUsage (store : Option UsageData) (today : String)
    (cookieName : String) (count : Nat) : Option UsageData × Int :=
  if cookieName ∉ cookieNames then (store, 0)
  else
    let usageData := loadUsageData store today
    let currentUsage := usageData.getUsage cookieName
    let usageData' := usageData.setUsage cookieName (currentUsage + count)
    let remaining : Int := (dailyLimit : Int) - usageData'.getUsage cookieName
    (some usageData', max 0 remaining)

theorem getUsage_setUsage_self (d : UsageData) (name : String) (v : Nat)
    (h : name ∈ cookieNames) : (d.setUsage name v).getUsage name = v := by
  fin_cases h <;> simp [UsageData.getUsage, UsageData.setUsage]

theorem getUsage_fresh (today nm : String) : (createFreshData today).getUsage nm = 0 := by
  simp only [createFreshData, UsageData.getUsage]
  split_ifs <;> rfl

/-- `check_rate_limit` as a store transition: the Python method reads the
persisted file and never calls `_save_usage_data`, so the stored state it
hands to the next operation is the one it was given. -/
def checkStep (store : Option UsageData) (today : String)
    (cookieName : String) (requestedCount : Nat) :
    Option UsageData × (Bool × Int) :=
  (store, checkRateLimit store today cookieName requestedCount)

theorem checkRateLimit_snd (store : Option UsageData) (today name : String)
    (n : Nat) (hname : name ∈ cookieNames) :
    (checkRateLimit store today name n).2
      = (dailyLimit : Int) - (loadUsageData store today).getUsage name := by
  have hmem : ¬ name ∉ cookieNames := by simpa using hname
  simp only [checkRateLimit, hmem, if_false]
  split <;> rfl

end Nbo

namespace Nbo

/-- C3: for a valid pool name, `check` is idempotent — a repeated check
without an intervening increment leaves the persisted store untouched and
returns the identical `(is_allowed, remaining)` pair — and
`increment(pool, k)` with `k` at most the prior remaining returns a
remaining count exactly `k` smaller than the prior remaining. -/
theorem check_idempotent_increment_exact
    (store : Option UsageData) (today name : String) (n k : Nat)
    (hname : name ∈ cookieNames) :
    (checkStep store today name n).1 = store ∧
    (checkStep (checkStep store today name n).1 today name n).2
      = (checkStep store today name n).2 ∧
    ((k : Int) ≤ (checkRateLimit store today name n).2 →
      (incrementUsage store today name k).2
        = (checkRateLimit store today name n).2 - k) := by
  refine ⟨rfl, rfl, fun hk => ?_⟩
  have hmem : ¬ name ∉ cookieNames := by simpa using hname
  rw [checkRateLimit_snd store today name n hname] at hk ⊢
  simp only [incrementUsage, hmem, if_false,
    getUsage_setUsage_self _ _ _ hname]
  omega

/-- Witness for C3 at a concrete store. -/
theorem check_idempotent_increment_exact_witness :
    (checkStep (some ⟨"2026-10-12", 10, 0, 0⟩) "2026-10-12" "main" 5).1
      = some ⟨"2026-10-12", 10, 0, 0⟩ ∧
    (checkStep ((checkStep (some ⟨"2026-10-12", 10, 0, 0⟩) "2026-10-12" "main" 5).1)
        "2026-10-12" "main" 5).2
      = (checkStep (some ⟨"2026-10-12", 10, 0, 0⟩) "2026-10-12" "main" 5).2 ∧
    ((3 : Int) ≤ (checkRateLimit (some ⟨"2026-10-12", 10, 0, 0⟩) "2026-10-12" "main" 5).2 →
      (incrementUsage (some ⟨"2026-10-12", 10, 0, 0⟩) "2026-10-12" "main" 3).2
        = (checkRateLimit (some ⟨"2026-10-12", 10, 0, 0⟩) "2026-10-12" "main" 5).2 - 3) :=
  check_idempotent_increment_exact (some ⟨"2026-10-12", 10, 0, 0⟩)
    "2026-10-12" "main" 5 3 (by decide)

/-- C4: if the persisted date stamp differs from today, the next `check`
or `increment` observes every pool reset to zero — both behave exactly as
on a fresh store, and the data they load reports zero usage for every
pool. -/
theorem day_rollover_resets_pools
    (d : UsageData) (today name : String) (n k : Nat)
    (hname : name ∈ cookieNames) (hd : d.date ≠ today) :
    (∀ nm, (loadUsageData (some d) today).getUsage nm = 0) ∧
    checkRateLimit (some d) today name n = checkRateLimit none today name n ∧
    incrementUsage (some d) today name k = incrementUsage none today name k := by
  have hmem : ¬ name ∉ cookieNames := by simpa using hname
  have hload : loadUsageData (some d) today = loadUsageData none today := by
    simp [loadUsageData, hd]
  refine ⟨fun nm => ?_, ?_, ?_⟩
  · simp [loadUsageData, hd, getUsage_fresh]
  · simp only [checkRateLimit, hmem, if_false]
    rw [hload]
  · simp only [incrementUsage, hmem, if_false]
    rw [hload]

theorem isSubList_correct (pat s : List Char) :
    isSubList pat s = true ↔ pat <:+: s := by
  induction s with
  | nil =>
    simp [isSubList, List.isEmpty_iff]
  | cons c rest ih =>
    simp [isSubList, List.infix_cons_iff, ih, List.isPrefixOf_iff_prefix]

theorem strContainsSub_trans (s a b : String)
    (hab : isSubList b.data a.data = true)
    (hs : strContainsSub s a = true) : strContainsSub s b = true := by
  rw [strContainsSub, isSubList_correct] at hs ⊢
  rw [isSubList_correct] at hab
  exact hab.trans hs

theorem mem_of_strContainsSub (s pat : String) (c : Char)
    (hc : c ∈ pat.data) (h : strContainsSub s pat = true) : c ∈ s.data := by
  rw [strContainsSub, isSubList_correct] at h
  exact h.subset hc

/-- Witness for C4 at a concrete stale store. -/
theorem day_rollover_resets_pools_witness :
    (∀ nm, (loadUsageData (some ⟨"2026-10-11", 499, 3, 7⟩) "2026-10-12").getUsage nm = 0) ∧
    checkRateLimit (some ⟨"2026-10-11", 499, 3, 7⟩) "2026-10-12" "main" 2
      = checkRateLimit none "2026-10-12" "main" 2 ∧
    incrementUsage (some ⟨"2026-10-11", 499, 3, 7⟩) "2026-10-12" "main" 2
      = incrementUsage none "2026-10-12" "main" 2 :=
  day_rollover_resets_pools ⟨"2026-10-11", 499, 3, 7⟩ "2026-10-12" "main" 2 2 (by decide) (by decide)

end Nbo

namespace Nbo

/-! ### services/linkedin_scraper.py — LinkedInScraper

`scrape_profile` / `scrape_profiles_bulk` (cookie-tracker variant): the
Apify client and cookie files are external collaborators, modelled by a
`ScrapeEnv`.  Side effects on external services are recorded as a call
trace, and the tracker store is threaded through explicitly.
-/

/-- One dataset item returned by the actor run; `url` is `none` when the
record has no "url" key.  `payload` stands for the rest of the record. -/
structure Item where
  url : Option String
  payload : Nat
  deriving Repr, DecidableEq

/-- Outcome of `client.actor(actor_id).call(...)` plus dataset download:
terminal SUCCEEDED status with its items, any other terminal status, or a
raised exception. -/
inductive RunOutcome where
  | succeeded (items : List Item)
  | failed (msg : String)
  | raised (msg : String)
  deriving Repr, DecidableEq

/-- External collaborators of one scrape call: the cookie file contents
(`_load_cookies` returns `[]` on failure) and the actor-run outcome. -/
structure ScrapeEnv where
  cookies : List Unit
  run : RunOutcome
  deriving Repr, DecidableEq

/-- Externally visible calls made during a scrape. -/
inductive ScrapeCall where
  | checkLimit
  | loadCookies
  | actorRun
  | increment
  deriving Repr, DecidableEq

/-- `LinkedInScraper._is_valid_linkedin_url`. -/
def isValidLinkedinUrl (url : String) : Bool :=
  url ≠ "" &&
    ["linkedin.com/in/", "www.linkedin.com/in/"].any
      (fun pattern => strContainsSub (lowerStr url) pattern)

/-- Result dictionary of `scrape_profile` (timing field elided). -/
structure SingleScrapeResult where
  success : Bool
  linkedinUrl : String
  error : Option String
  hasProfileData : Bool
  rateAllowed : Bool
  rateRemaining : Int
  deriving Repr, DecidableEq

/-- `LinkedInScraper.scrape_profile(linkedin_url, cookie_name)`: validate
the URL, check the cookie rate limit, load cookies, dispatch the actor,
and increment usage by 1 only when the run SUCCEEDED with a non-empty
dataset.  Returns the result, the persisted tracker store after the call,
and the trace of external calls made. -/
def scrapeProfile (env : ScrapeEnv) (store : Option UsageData) (today : String)
    (linkedinUrl cookieName : String) :
    SingleScrapeResult × Option UsageData × List ScrapeCall :=
  if ¬ isValidLinkedinUrl linkedinUrl then
    ({ success := false, linkedinUrl := linkedinUrl,
       error := some "Invalid LinkedIn profile URL format",
       hasProfileData := false, rateAllowed := false, rateRemaining := 0 },
     store, [])
  else
    let check := checkRateLimit store today cookieName 1
    if ¬ check.1 then
      ({ success := false, linkedinUrl := linkedinUrl,
         error := some "Daily rate limit exceeded",
         hasProfileData := false, rateAllowed := false, rateRemaining := check.2 },
       store, [.checkLimit])
    else if env.cookies.isEmpty then
      ({ success := false, linkedinUrl := linkedinUrl,
         error := some "Failed to load cookies",
         hasProfileData := false, rateAllowed := true, rateRemaining := check.2 },
       store, [.checkLimit, .loadCookies])
    else
      match env.run with
      | .succeeded items =>
        if ¬ items.isEmpty then
          let incr := incrementUsage store today cookieName 1
          ({ success := true, linkedinUrl := linkedinUrl, error := none,
             hasProfileData := true, rateAllowed := true, rateRemaining := incr.2 },
           incr.1, [.checkLimit, .loadCookies, .actorRun, .increment])
        else
          ({ success := false, linkedinUrl := linkedinUrl,
             error := some "No profile data found",
             hasProfileData := false, rateAllowed := true, rateRemaining := check.2 },
           store, [.checkLimit, .loadCookies, .actorRun])
      | .failed msg =>
        ({ success := false, linkedinUrl := linkedinUrl,
           error := some ("Actor run failed with status: " ++ msg),
           hasProfileData := false, rateAllowed := true, rateRemaining := check.2 },
         store, [.checkLimit, .loadCookies, .actorRun])
      | .raised msg =>
        ({ success := false, linkedinUrl := linkedinUrl,
           error := some ("Scraping error: " ++ msg),
           hasProfileData := false, rateAllowed := true, rateRemaining := check.2 },
         store, [.checkLimit, .loadCookies, .actorRun])

/-- Per-URL entry of the bulk result. -/
structure BulkUrlResult where
  linkedinUrl : String
  success : Bool
  error : Option String
  deriving Repr, DecidableEq

/-- Result dictionary of `scrape_profiles_bulk` (timing field elided). -/
structure BulkScrapeResult where
  success : Bool
  error : Option String
  validCount : Nat
  invalidCount : Nat
  invalidUrls : List String
  results : List BulkUrlResult
  rateAllowed : Bool
  rateRemaining : Int
  deriving Repr, DecidableEq

/-- `LinkedInScraper.scrape_profiles_bulk(linkedin_urls, cookie_name)`:
partition syntactically valid/invalid URLs, rate-check the valid count,
dispatch one actor run for all valid URLs, and on SUCCEEDED with a
non-empty dataset increment usage by `len(valid_urls)` and map each
returned record back to its URL by the record's "url" key. -/
def scrapeProfilesBulk (env : ScrapeEnv) (store : Option UsageData) (today : String)
    (linkedinUrls : List String) (cookieName : String) :
    BulkScrapeResult × Option UsageData :=
  let validUrls := linkedinUrls.filter isValidLinkedinUrl
  let invalidUrls := linkedinUrls.filter (fun u => ¬ isValidLinkedinUrl u)
  if validUrls.isEmpty then
    ({ success := false, error := some "No valid LinkedIn profile URLs provided",
       validCount := 0, invalidCount := invalidUrls.length,
       invalidUrls := invalidUrls, results := [],
       rateAllowed := false, rateRemaining := 0 }, store)
  else
    let check := checkRateLimit store today cookieName validUrls.length
    if ¬ check.1 then
      ({ success := false, error := some "Daily rate limit would be exceeded",
         validCount := validUrls.length, invalidCount := invalidUrls.length,
         invalidUrls := invalidUrls, results := [],
         rateAllowed := false, rateRemaining := check.2 }, store)
    else if env.cookies.isEmpty then
      ({ success := false, error := some "Failed to load cookies",
         validCount := validUrls.length, invalidCount := invalidUrls.length,
         invalidUrls := invalidUrls, results := [],
         rateAllowed := true, rateRemaining := check.2 }, store)
    else
      match env.run with
      | .succeeded items =>
        if ¬ items.isEmpty then
          let incr := incrementUsage store today cookieName validUrls.length
          let results := validUrls.map (fun u =>
            if items.any (fun item => item.url = some u) then
              { linkedinUrl := u, success := true, error := none }
            else
              { linkedinUrl := u, success := false,
                error := some "Profile not found in results" })
          ({ success := true, error := none,
             validCount := validUrls.length, invalidCount := invalidUrls.length,
             invalidUrls := invalidUrls, results := results,
             rateAllowed := true, rateRemaining := incr.2 }, incr.1)
        else
          ({ success := false, error := some "No profile data found",
             validCount := validUrls.length, invalidCount := invalidUrls.length,
             invalidUrls := invalidUrls, results := [],
             rateAllowed := true, rateRemaining := check.2 }, store)
      | .failed msg =>
        ({ success := false, error := some ("Actor run failed with status: " ++ msg),
           validCount := validUrls.length, invalidCount := invalidUrls.length,
           invalidUrls := invalidUrls, results := [],
           rateAllowed := true, rateRemaining := check.2 }, store)
      | .raised msg =>
        ({ success := false, error := some ("Bulk scraping error: " ++ msg),
           validCount := validUrls.length, invalidCount := invalidUrls.length,
           invalidUrls := invalidUrls, results := [],
           rateAllowed := true, rateRemaining := check.2 }, store)

theorem isValidLinkedinUrl_false_of_no_pattern (url : String)
    (h : strContainsSub (lowerStr url) "linkedin.com/in/" = false) :
    isValidLinkedinUrl url = false := by
  simp only [isValidLinkedinUrl, List.any_cons, List.any_nil, Bool.or_false,
    Bool.and_eq_false_iff, Bool.or_eq_false_iff]
  right
  refine ⟨h, ?_⟩
  by_contra hw
  rw [Bool.not_eq_false] at hw
  have := strContainsSub_trans (lowerStr url) "www.linkedin.com/in/" "linkedin.com/in/"
    (by decide) hw
  rw [this] at h
  exact Bool.true_eq_false.mp h

end Nbo

namespace Nbo

/-- C8: a scrape call whose URL does not contain the `linkedin.com/in/`
pattern returns the validation-error result, leaves the persisted usage
store untouched, and makes zero external calls — in particular no
credential-store load and no job-runner dispatch. -/
theorem invalid_url_zero_side_effects
    (env : ScrapeEnv) (store : Option UsageData) (today url cookieName : String)
    (h : strContainsSub (lowerStr url) "linkedin.com/in/" = false) :
    scrapeProfile env store today url cookieName =
      ({ success := false, linkedinUrl := url,
         error := some "Invalid LinkedIn profile URL format",
         hasProfileData := false, rateAllowed := false, rateRemaining := 0 },
       store, []) := by
  have hv := isValidLinkedinUrl_false_of_no_pattern url h
  simp [scrapeProfile, hv]

/-- Witness for C8 at a concrete non-LinkedIn URL. -/
theorem invalid_url_zero_side_effects_witness :
    strContainsSub (lowerStr "https://example.com/profile") "linkedin.com/in/" = false ∧
    scrapeProfile ⟨[()], .failed "READY"⟩ (some ⟨"2026-10-12", 0, 0, 0⟩) "2026-10-12"
        "https://example.com/profile" "main" =
      ({ success := false, linkedinUrl := "https://example.com/profile",
         error := some "Invalid LinkedIn profile URL format",
         hasProfileData := false, rateAllowed := false, rateRemaining := 0 },
       some ⟨"2026-10-12", 0, 0, 0⟩, []) :=
  ⟨by decide,
   invalid_url_zero_side_effects ⟨[()], .failed "READY"⟩ (some ⟨"2026-10-12", 0, 0, 0⟩)
     "2026-10-12" "https://example.com/profile" "main" (by decide)⟩

/-- C1 counterexample: a bulk scrape of two valid URLs whose SUCCEEDED run
returns a record for only one of them still increments the pool usage by
2 (the number of valid URLs dispatched), while only 1 URL was actually
scraped — refuting the claim that usage grows by the number of URLs with
a returned record. -/
theorem bulk_increment_counterexample :
    (scrapeProfilesBulk ⟨[()], .succeeded [⟨some "https://linkedin.com/in/alice", 0⟩]⟩
        (some ⟨"2026-10-12", 0, 0, 0⟩) "2026-10-12"
        ["https://linkedin.com/in/alice", "https://linkedin.com/in/bob"] "main").1.success
        = true ∧
    ((scrapeProfilesBulk ⟨[()], .succeeded [⟨some "https://linkedin.com/in/alice", 0⟩]⟩
        (some ⟨"2026-10-12", 0, 0, 0⟩) "2026-10-12"
        ["https://linkedin.com/in/alice", "https://linkedin.com/in/bob"] "main").1.results.filter
        (fun r => r.success)).length = 1 ∧
    (scrapeProfilesBulk ⟨[()], .succeeded [⟨some "https://linkedin.com/in/alice", 0⟩]⟩
        (some ⟨"2026-10-12", 0, 0, 0⟩) "2026-10-12"
        ["https://linkedin.com/in/alice", "https://linkedin.com/in/bob"] "main").2
      = some ⟨"2026-10-12", 2, 0, 0⟩ ∧
    (2 : Nat) ≠ 1 := by
  refine ⟨by decide, by decide, by decide, by decide⟩

/-- C1 (amended): on a bulk scrape whose external job SUCCEEDED with a
non-empty result set, the pool usage counter is incremented by exactly
the number of syntactically valid URLs dispatched (`len(valid_urls)`),
regardless of how many of them have a returned record. -/
theorem bulk_increment_by_valid_count
    (env : ScrapeEnv) (store : Option UsageData) (today cookieName : String)
    (urls : List String) (items : List Item)
    (hname : cookieName ∈ cookieNames)
    (hrun : env.run = .succeeded items)
    (hitems : items ≠ [])
    (hcookies : env.cookies ≠ [])
    (hvalid : urls.filter isValidLinkedinUrl ≠ [])
    (hallowed : (checkRateLimit store today cookieName
        (urls.filter isValidLinkedinUrl).length).1 = true) :
    ((scrapeProfilesBulk env store today urls cookieName).2.map
        (fun d => d.getUsage cookieName))
      = some ((loadUsageData store today).getUsage cookieName
          + (urls.filter isValidLinkedinUrl).length) := by
  have hmem : ¬ cookieName ∉ cookieNames := by simpa using hname
  have h1 : (urls.filter isValidLinkedinUrl).isEmpty = false := by
    simpa [List.isEmpty_iff] using hvalid
  have h2 : (env.cookies.isEmpty) = false := by
    simpa [List.isEmpty_iff] using hcookies
  have h3 : items.isEmpty = false := by
    simpa [List.isEmpty_iff] using hitems
  simp only [scrapeProfilesBulk, hrun, h1, h2, h3, hallowed,
    Bool.false_eq_true, not_false_eq_true, not_true_eq_false, if_true, if_false,
    ite_false, ite_true, incrementUsage, hmem,
    Bool.not_eq_true]
  simp [getUsage_setUsage_self _ _ _ hname]

/-- Witness for the amended C1 theorem at the counterexample input. -/
theorem bulk_increment_by_valid_count_witness :
    ((scrapeProfilesBulk ⟨[()], .succeeded [⟨some "https://linkedin.com/in/alice", 0⟩]⟩
        (some ⟨"2026-10-12", 0, 0, 0⟩) "2026-10-12"
        ["https://linkedin.com/in/alice", "https://linkedin.com/in/bob"] "main").2.map
        (fun d => d.getUsage "main"))
      = some ((loadUsageData (some ⟨"2026-10-12", 0, 0, 0⟩) "2026-10-12").getUsage "main"
          + (["https://linkedin.com/in/alice",
              "https://linkedin.com/in/bob"].filter isValidLinkedinUrl).length) :=
  bulk_increment_by_valid_count ⟨[()], .succeeded [⟨some "https://linkedin.com/in/alice", 0⟩]⟩
    (some ⟨"2026-10-12", 0, 0, 0⟩) "2026-10-12" "main"
    ["https://linkedin.com/in/alice", "https://linkedin.com/in/bob"]
    [⟨some "https://linkedin.com/in/alice", 0⟩]
    (by decide) rfl (by decide) (by decide) (by decide) (by decide)

end Nbo

namespace Nbo

/-! ### lkd_scraper.py — ScrapingStateManager and the batch 429 handling

The background batch service keeps `{date, usage, limits}` per cookie pool
and reacts to the scrape API's responses.  An HTTP 429 from the API
(`scrape_profile` returning the "rate_limit" error) makes
`process_profile_batch` set `state["usage"][cookie] = state["limits"][cookie]`
and save, marking the pool exhausted regardless of the local count.
-/

/-- The three per-pool counters of `scraping_status.json`. -/
structure PoolCounts where
  main : Nat
  backup : Nat
  personal : Nat
  deriving Repr, DecidableEq

def PoolCounts.get (p : PoolCounts) (name : String) : Nat :=
  if name = "main" then p.main
  else if name = "backup" then p.backup
  else if name = "personal" then p.personal
  else 0

def PoolCounts.set (p : PoolCounts) (name : String) (v : Nat) : PoolCounts :=
  if name = "main" then { p with main := v }
  else if name = "backup" then { p with backup := v }
  else if name = "personal" then { p with personal := v }
  else p

/-- `ScrapingStateManager.state`. -/
structure ScrapingState where
  date : String
  usage : PoolCounts
  limits : PoolCounts
  deriving Repr, DecidableEq

/-- `ScrapingStateManager._create_fresh_state(today)`. -/
def createFreshState (today : String) : ScrapingState :=
  { date := today, usage := ⟨0, 0, 0⟩, limits := ⟨100, 70, 10⟩ }

/-- `ScrapingStateManager.increment_usage(cookie, count)` (state part). -/
def stateIncrementUsage (st : ScrapingState) (cookie : String) (count : Nat) :
    ScrapingState :=
  if cookie ∉ cookieNames then st
  else { st with usage := st.usage.set cookie (st.usage.get cookie + count) }

/-- An observation of one scrape attempt in `process_profile_batch`, or a
day-rollover check: the events that touch the persisted usage state. -/
inductive BatchEvent where
  | scrapeSuccess
  | scrapeRateLimit
  | profileNotFound (msg : String)
  | otherError (msg : String)
  | dayReset (today : String)
  deriving Repr, DecidableEq

/-- State effect of one `process_profile_batch` event on the persisted
scraping state, translated from the event handlers in the batch loop:
success increments the cookie by 1; a 429 ("rate_limit") forces the
cookie's usage to its limit; 404 and other errors leave usage alone;
`reset_if_new_day` recreates fresh state when the date stamp changed. -/
def applyBatchEvent (st : ScrapingState) (cookie : String) : BatchEvent → ScrapingState
  | .scrapeSuccess => stateIncrementUsage st cookie 1
  | .scrapeRateLimit => { st with usage := st.usage.set cookie (st.limits.get cookie) }
  | .profileNotFound _ => st
  | .otherError _ => st
  | .dayReset today => if st.date ≠ today then createFreshState today else st

theorem poolGet_poolSet_self (p : PoolCounts) (name : String) (v : Nat)
    (h : name ∈ cookieNames) : (p.set name v).get name = v := by
  fin_cases h <;> simp [PoolCounts.get, PoolCounts.set]

/-- C2: an external 429 during batch scraping immediately forces the
affected pool's used count to its limit, whatever the local count was;
and every other event either increments usage by exactly what a success
accounts for (1 for the scraped pool, 0 otherwise), leaves it unchanged,
or resets it to zero on day rollover — no other event can push usage
above what increments accumulate. -/
theorem external_429_forces_exhaustion
    (st : ScrapingState) (cookie : String) (e : BatchEvent)
    (hname : cookie ∈ cookieNames) :
    (applyBatchEvent st cookie .scrapeRateLimit).usage.get cookie
        = st.limits.get cookie ∧
    (e ≠ .scrapeRateLimit →
      ∀ nm, (applyBatchEvent st cookie e).usage.get nm = st.usage.get nm
          + (if e = .scrapeSuccess ∧ nm = cookie then 1 else 0)
        ∨ (applyBatchEvent st cookie e).usage.get nm = 0) := by
  constructor
  · simp only [applyBatchEvent]
    exact poolGet_poolSet_self _ _ _ hname
  · intro he nm
    have hmem : ¬ cookie ∉ cookieNames := by simpa using hname
    cases e with
    | scrapeSuccess =>
      by_cases hnm : nm = cookie
      · subst hnm
        left
        simp only [applyBatchEvent, stateIncrementUsage, hmem, if_false,
          poolGet_poolSet_self _ _ _ hname]
        simp
      · left
        have : (st.usage.set cookie (st.usage.get cookie + 1)).get nm = st.usage.get nm := by
          fin_cases hname <;>
            simp_all [PoolCounts.get, PoolCounts.set] <;>
            split_ifs <;> simp_all
        simp only [applyBatchEvent, stateIncrementUsage, hmem, if_false, this]
        simp [hnm]
    | scrapeRateLimit => exact absurd rfl he
    | profileNotFound msg => left; simp [applyBatchEvent]
    | otherError msg => left; simp [applyBatchEvent]
    | dayReset today =>
      simp only [applyBatchEvent]
      by_cases hd : st.date ≠ today
      · rw [if_pos hd]
        right
        simp only [createFreshState, PoolCounts.get]
        split_ifs <;> rfl
      · rw [if_neg hd]
        left
        simp

/-- Witness for C2 with a concrete partially-used pool. -/
theorem external_429_forces_exhaustion_witness :
    (applyBatchEvent ⟨"2026-10-12", ⟨37, 0, 0⟩, ⟨100, 70, 10⟩⟩ "main"
        .scrapeRateLimit).usage.get "main"
      = (⟨100, 70, 10⟩ : PoolCounts).get "main" ∧
    ((BatchEvent.scrapeSuccess ≠ .scrapeRateLimit) →
      ∀ nm, (applyBatchEvent ⟨"2026-10-12", ⟨37, 0, 0⟩, ⟨100, 70, 10⟩⟩ "main"
          .scrapeSuccess).usage.get nm
          = (⟨37, 0, 0⟩ : PoolCounts).get nm
            + (if BatchEvent.scrapeSuccess = .scrapeSuccess ∧ nm = "main" then 1 else 0)
        ∨ (applyBatchEvent ⟨"2026-10-12", ⟨37, 0, 0⟩, ⟨100, 70, 10⟩⟩ "main"
          .scrapeSuccess).usage.get nm = 0) :=
  external_429_forces_exhaustion ⟨"2026-10-12", ⟨37, 0, 0⟩, ⟨100, 70, 10⟩⟩ "main"
    .scrapeSuccess (by decide)

end Nbo

namespace Nbo

/-! ### services/email_classification/classifier.py — EmailClassifier

`is_work_email` / `classify_email`, parameterized by the loaded personal
domain set and personal provider list (files or hard-coded defaults).
The compiled provider regex `(^p$|^p\.|\.p$|\.p\.)` is translated to the
equivalent anchored string tests.
-/

theorem charOfNat_toNat (n : Nat) (h : n < 1000) : (Char.ofNat n).toNat = n := by
  unfold Char.ofNat
  split
  · rfl
  · next hv => exact absurd (by unfold Nat.isValidChar; omega) hv

theorem toLower_eq_at (a : Char) (h : a.toLower = '@') : a = '@' := by
  unfold Char.toLower at h
  simp only [] at h
  by_cases hc : a.toNat ≥ 65 ∧ a.toNat ≤ 90
  · rw [if_pos hc] at h
    exfalso
    have h2 : (Char.ofNat (a.toNat + 32)).toNat = ('@' : Char).toNat := by rw [h]
    rw [charOfNat_toNat (a.toNat + 32) (by omega)] at h2
    have h3 : ('@' : Char).toNat = 64 := by decide
    omega
  · rw [if_neg hc] at h
    exact h

/-- Python `s.endswith(pat)`. -/
def endsWithStr (s pat : String) : Bool :=
  pat.data.isSuffixOf s.data

/-- The dot-joined suffixes `'.'.join(domain_parts[i:])` for each `i`. -/
def dotSuffixes : List String → List String
  | [] => []
  | p :: rest => pyJoin "." (p :: rest) :: dotSuffixes rest

/-- One alternative of the compiled provider pattern
`(^p$|^p\.|\.p$|\.p\.)` applied by `re.search` to `s`; providers shorter
than two characters are skipped when the pattern is compiled. -/
def providerPatternMatch (providers : List String) (s : String) : Bool :=
  providers.any (fun p =>
    p ≠ "" && p.data.length ≥ 2 &&
      (s = p || (p ++ ".").data.isPrefixOf s.data ||
        ("." ++ p).data.isSuffixOf s.data || strContainsSub s ("." ++ p ++ ".")))

def businessTlds : List String := [".com", ".co", ".biz", ".ltd", ".pro", ".company", ".net"]

def countryTlds : List String := [".uk", ".ca", ".au", ".fr", ".de", ".it", ".es", ".jp"]

def businessPrefixes : List String := [".co", ".com", ".biz", ".enterprise", ".business"]

/-- `EmailClassifier.is_work_email(email)` over the loaded personal
domain set and provider list.  The `@nicolasboucher.online` special case
is the first test; the dead `generic_tlds` block (a `pass`) is elided. -/
def isWorkEmail (personalDomains personalProviders : List String)
    (email : String) : Bool :=
  if email ≠ "" ∧ strContainsSub (lowerStr email) "@nicolasboucher.online" then true
  else if email = "" ∨ ¬ pyInStr '@' email then false
  else
    let domain := lowerStr ((pySplit email '@').getLastD "")
    if personalDomains.contains domain then false
    else if strContainsSub domain "email" ||
        (strContainsSub domain "mail" && ! strContainsSub domain "gmail") then false
    else if (dotSuffixes (pySplit domain '.')).any
        (providerPatternMatch personalProviders) then false
    else if personalProviders.any (fun p => strContainsSub domain p) then false
    else if strContainsSub domain "enterprise.org" ||
        strContainsSub domain "business.org" then true
    else if strContainsSub domain "business.net" ||
        strContainsSub domain "enterprise.net" then true
    else if endsWithStr domain ".edu" || strContainsSub domain ".edu." then false
    else if endsWithStr domain ".gov" || strContainsSub domain ".gov." then true
    else if businessTlds.any (fun tld => endsWithStr domain tld) then true
    else if countryTlds.any (fun tld => endsWithStr domain tld &&
        businessPrefixes.any (fun pre => strContainsSub domain (pre ++ tld))) then true
    else if endsWithStr domain ".com" then true
    else false

/-- `EmailClassifier.classify_email(email)`. -/
def classifyEmail (personalDomains personalProviders : List String)
    (email : String) : String × String :=
  if email = "" ∨ ¬ pyInStr '@' email then ("unknown", "")
  else
    let domain := lowerStr ((pySplit email '@').getLastD "")
    if isWorkEmail personalDomains personalProviders email then ("work", domain)
    else ("personal", domain)

/-- C10: any email containing `@nicolasboucher.online` case-insensitively
is classified "work", for every personal-domain set and provider list —
the hardcoded special case is the first test of `is_work_email`, ahead of
the personal-domain set, the mail/email keyword rule, the provider
pattern and every later rule, so it overrides them all. -/
theorem nicolasboucher_always_work
    (personalDomains personalProviders : List String) (email : String)
    (h : strContainsSub (lowerStr email) "@nicolasboucher.online" = true) :
    (classifyEmail personalDomains personalProviders email).1 = "work" := by
  have hat : pyInStr '@' email = true := by
    have hmem : '@' ∈ (lowerStr email).data :=
      mem_of_strContainsSub _ "@nicolasboucher.online" '@' (by decide) h
    simp only [lowerStr, List.mem_map] at hmem
    obtain ⟨a, ha, hlow⟩ := hmem
    rw [pyInStr]
    exact List.elem_eq_true_of_mem (by rwa [toLower_eq_at a hlow] at ha)
  have hne : email ≠ "" := by
    intro hemp
    rw [hemp] at hat
    exact absurd hat (by decide)
  have hwork : isWorkEmail personalDomains personalProviders email = true := by
    rw [isWorkEmail, if_pos ⟨hne, h⟩]
  rw [classifyEmail, if_neg (by simp [hne, hat]), hwork]
  simp

/-- Witness for C10: a domain that every other rule would call personal
(it is even listed in the personal-domain set) is still "work". -/
theorem nicolasboucher_always_work_witness :
    strContainsSub (lowerStr "info@NicolasBoucher.online") "@nicolasboucher.online" = true ∧
    (classifyEmail ["nicolasboucher.online"] ["nicolasboucher"]
        "info@NicolasBoucher.online").1 = "work" :=
  ⟨by decide,
   nicolasboucher_always_work ["nicolasboucher.online"] ["nicolasboucher"]
     "info@NicolasBoucher.online" (by decide)⟩

end Nbo

namespace Nbo

/-! ### services/name_extractor.py — NameExtractor

`extract_name_from_email` and `_basic_fallback_extraction`.  The embedding
runs in `Except String`: Python list indexing (`email.split('@')[1]`) is a
fallible primitive (`pyIndex`), and the OpenAI boundary
(`_call_openai_api`) is an oracle that either raises (`.error`) or returns
an optional extracted name — the outer try/except maps a raise to the
fallback path.
-/

/-- Python list indexing `l[i]` (non-negative index), raising IndexError
when out of range. -/
def pyIndex {α : Type} : List α → Nat → Except String α
  | [], _ => .error "IndexError"
  | x :: _, 0 => .ok x
  | _ :: xs, i + 1 => pyIndex xs i

def nonPersonal : List String :=
  ["admin", "info", "contact", "hello", "sales", "support",
   "marketing", "help", "webmaster", "noreply", "no-reply",
   "team", "office", "billing", "mail", "postmaster", "jobs",
   "career", "hr", "service", "services"]

/-- Python `s.upper()` on one character (as a string). -/
def upperChar (c : Char) : String := ⟨[c.toUpper]⟩

/-- `re.sub(r'[._-]', ' ', s)`. -/
def replaceSeps (s : String) : String :=
  ⟨s.data.map (fun ch => if ch = '.' ∨ ch = '_' ∨ ch = '-' then ' ' else ch)⟩

/-- `re.sub(r'[0-9]', '', s)`. -/
def stripDigits (s : String) : String :=
  ⟨s.data.filter (fun ch => ¬ ch.isDigit)⟩

/-- Formatting of one structured-email part:
`part.upper()` when one character long, `part.capitalize()` otherwise. -/
def formatPart (p : String) : String :=
  if p.data.length = 1 then ⟨p.data.map Char.toUpper⟩ else pyCapitalize p

/-- Truthiness + length test `domain and len(domain) > 2`. -/
def domainLongEnough : Option String → Bool
  | some d => d ≠ "" && d.data.length > 2
  | none => false

/-- The body of `_basic_fallback_extraction` once `username` and
`domain_parts` have been computed (everything after line 244 of
name_extractor.py); total, since each tier only inspects already
materialized strings. -/
def basicFallbackCore (givenName : Option String) (username : String)
    (domainParts : List String) : Option String × String :=
  let domain : Option String :=
    match domainParts with
    | [] => none
    | d0 :: _ => some (pyCapitalize d0)
  if pyTruthy givenName then
    let g := givenName.getD ""
    if pyInStr ' ' g then (some g, "Used provided full name")
    else if domainLongEnough domain then
      (some (g ++ " " ++ domain.getD ""), "Combined first name and domain")
    else (some (g ++ " User"), "Used provided first name")
  else
    let firstLast : Option (Option String × String) :=
      if pyInStr '.' username then
        match pySplit username '.' with
        | [p0, p1] =>
          if p0.data.length > 1 ∧ p1.data.length > 1 then
            some (some (pyCapitalize p0 ++ " " ++ pyCapitalize p1), "First.Last format")
          else none
        | _ => none
      else none
    match firstLast with
    | some r => r
    | none =>
      let structured : Option (Option String × String) :=
        if pyInStr '.' username ∨ pyInStr '_' username ∨ pyInStr '-' username then
          let clean := pyStrip (stripDigits (replaceSeps username))
          let parts := pySplitWs clean
          if parts.length ≥ 2 then
            some (some (pyJoin " " (parts.map formatPart)), "Structured email fallback")
          else
            match parts, domain with
            | [p0], some d =>
              if d ≠ "" then
                some (some (pyCapitalize p0 ++ " " ++ d), "Username and domain fallback")
              else none
            | _, _ => none
        else none
      match structured with
      | some r => r
      | none =>
        let initialLast : Option (Option String × String) :=
          match username.data with
          | c :: r1 :: rest =>
            if pyIsAlpha [c] ∧ pyIsAlpha (r1 :: rest) then
              let potentialLast := pyCapitalize ⟨r1 :: rest⟩
              if potentialLast.data.length > 2 then
                some (some (upperChar c ++ ". " ++ potentialLast),
                  "First initial + last name fallback")
              else none
            else none
          | _ => none
        match initialLast with
        | some r => r
        | none =>
          if domainLongEnough domain ∧ username.data.length > 2 then
            (some (pyCapitalize username ++ " " ++ domain.getD ""),
             "Username + domain fallback")
          else if username.data.length ≥ 3 then
            (some (pyCapitalize username ++ " User"), "Single word username fallback")
          else (none, "No name detected in fallback")

/-- `NameExtractor._basic_fallback_extraction(email, given_name)`:
computes `username = email.split('@')[0].lower()` and
`domain_parts = email.split('@')[1].split('.') if '@' in email else []`,
then runs the fallback tiers. -/
def basicFallbackExtraction (email : String) (givenName : Option String) :
    Except String (Option String × String) :=
  match pyIndex (pySplit email '@') 0 with
  | .error e => .error e
  | .ok u0 =>
    if pyInStr '@' email then
      match pyIndex (pySplit email '@') 1 with
      | .error e => .error e
      | .ok d1 => .ok (basicFallbackCore givenName (lowerStr u0) (pySplit d1 '.'))
    else .ok (basicFallbackCore givenName (lowerStr u0) [])

/-- `NameExtractor.extract_name_from_email(email, given_name)` with the
OpenAI boundary as the oracle `api` (a raise maps to the except branch,
which delegates to the fallback). -/
def extractNameFromEmail (api : Except String (Option String)) (email : String)
    (givenName : Option String) : Except String (Option String × String) :=
  if pyTruthy givenName ∧ pyInStr ' ' (givenName.getD "") then
    .ok (givenName, "User provided full name")
  else if ¬ pyInStr '@' email then .ok (none, "Invalid email")
  else
    match pyIndex (pySplit email '@') 0 with
    | .error e => .error e
    | .ok u0 =>
      let username := lowerStr u0
      if nonPersonal.contains username then .ok (none, "Non-personal email")
      else if username.data.length < 2 ∨ allDigits username then
        .ok (none, "Invalid username")
      else
        let special : Except String (Option (Option String × String)) :=
          if pyTruthy givenName then
            match pyIndex (pySplit email '@') 1 with
            | .error e => .error e
            | .ok d1 =>
              let domainParts := pySplit d1 '.'
              if domainParts ≠ [] then
                let domain := pyCapitalize (domainParts.headD "")
                if domain ≠ "" ∧ domain.data.length > 2 then
                  .ok (some (some (givenName.getD "" ++ " " ++ domain),
                    "Combined first name and domain"))
                else .ok none
              else .ok none
          else .ok none
        match special with
        | .error e => .error e
        | .ok (some r) => .ok r
        | .ok none =>
          match api with
          | .error _ => basicFallbackExtraction email givenName
          | .ok (some name) => .ok (some name, "OpenAI extraction")
          | .ok none =>
            match basicFallbackExtraction email givenName with
            | .error e => .error e
            | .ok fb =>
              if pyTruthy fb.1 then .ok (fb.1, "Fallback: " ++ fb.2)
              else .ok (none, "No name detected by OpenAI")

theorem splitOnChar_length_ge_two (c : Char) (l : List Char) (h : c ∈ l) :
    2 ≤ (splitOnChar c l).length := by
  induction l with
  | nil => cases h
  | cons x xs ih =>
    have hne := splitOnChar_ne_nil c xs
    simp only [splitOnChar]
    rcases hsp : splitOnChar c xs with _ | ⟨h₁, t⟩
    · exact absurd hsp hne
    · by_cases hx : x = c
      · simp [hx]
      · have hcx : c ∈ xs := by
          rcases List.mem_cons.mp h with h1 | h2
          · exact absurd h1.symm hx
          · exact h2
        have := ih hcx
        rw [hsp] at this
        simpa [hx] using this

theorem mem_of_pyInStr (c : Char) (s : String) (h : pyInStr c s = true) :
    c ∈ s.data := by
  rw [pyInStr] at h
  simpa using h

theorem pyIndex_zero_pySplit (s : String) (c : Char) :
    ∃ x, pyIndex (pySplit s c) 0 = .ok x := by
  rcases hsp : pySplit s c with _ | ⟨h, t⟩
  · exact absurd hsp (pySplit_ne_nil s c)
  · exact ⟨h, rfl⟩

theorem pyIndex_one_pySplit (s : String) (c : Char) (h : pyInStr c s = true) :
    ∃ x, pyIndex (pySplit s c) 1 = .ok x := by
  have hlen : 2 ≤ (pySplit s c).length := by
    rw [pySplit, List.length_map]
    exact splitOnChar_length_ge_two c s.data (mem_of_pyInStr c s h)
  rcases hsp : pySplit s c with _ | ⟨a, _ | ⟨b, t⟩⟩
  · rw [hsp] at hlen; simp at hlen
  · rw [hsp] at hlen; simp at hlen
  · exact ⟨b, rfl⟩

theorem basicFallbackExtraction_isOk (email : String) (givenName : Option String) :
    (basicFallbackExtraction email givenName).isOk = true := by
  obtain ⟨u0, hu0⟩ := pyIndex_zero_pySplit email '@'
  by_cases hat : pyInStr '@' email = true
  · obtain ⟨d1, hd1⟩ := pyIndex_one_pySplit email '@' hat
    simp only [basicFallbackExtraction, hu0, hat, if_true, hd1]
    rfl
  · simp only [basicFallbackExtraction, hu0, hat, if_false]
    rfl

/-- C9: the name resolver is total — for every email, optional given
name, and text-completion outcome (including a raised exception), it
returns an `(optional-name, method)` pair rather than propagating an
error; `none` is a valid terminal outcome. -/
theorem name_resolver_api_branch_isOk (api : Except String (Option String))
    (email : String) (givenName : Option String) :
    (match api with
      | .error _ => basicFallbackExtraction email givenName
      | .ok (some name) => (.ok (some name, "OpenAI extraction") :
          Except String (Option String × String))
      | .ok none =>
        match basicFallbackExtraction email givenName with
        | .error e => .error e
        | .ok fb =>
          if pyTruthy fb.1 then .ok (fb.1, "Fallback: " ++ fb.2)
          else .ok (none, "No name detected by OpenAI")).isOk = true := by
  have hfb := basicFallbackExtraction_isOk email givenName
  rcases api with e | r
  · exact hfb
  · rcases r with _ | name
    · rcases hfbv : basicFallbackExtraction email givenName with e | fb
      · rw [hfbv] at hfb; simp [Except.isOk, Except.toBool] at hfb
      · simp only [hfbv]
        by_cases h6 : pyTruthy fb.1 = true
        · rw [if_pos h6]; rfl
        · rw [if_neg h6]; rfl
    · rfl

theorem name_resolver_never_raises (api : Except String (Option String))
    (email : String) (givenName : Option String) :
    (extractNameFromEmail api email givenName).isOk = true := by
  unfold extractNameFromEmail
  by_cases h1 : pyTruthy givenName = true ∧ pyInStr ' ' (givenName.getD "") = true
  · rw [if_pos (by simpa using h1)]; rfl
  · rw [if_neg (by simpa using h1)]
    by_cases hat : pyInStr '@' email = true
    case neg => rw [if_pos hat]; rfl
    · rw [if_neg (by simp [hat])]
      obtain ⟨u0, hu0⟩ := pyIndex_zero_pySplit email '@'
      simp only [hu0]
      by_cases h3 : nonPersonal.contains (lowerStr u0) = true
      · rw [if_pos h3]; rfl
      · rw [if_neg h3]
        by_cases h4 : (lowerStr u0).data.length < 2 ∨ allDigits (lowerStr u0) = true
        · rw [if_pos (by simpa using h4)]; rfl
        · rw [if_neg (by simpa using h4)]
          by_cases h5 : pyTruthy givenName = true
          · obtain ⟨d1, hd1⟩ := pyIndex_one_pySplit email '@' hat
            rw [if_pos h5]
            simp only [hd1]
            rw [if_pos (pySplit_ne_nil d1 '.')]
            by_cases h7 : pyCapitalize ((pySplit d1 '.').headD "") ≠ "" ∧
                (pyCapitalize ((pySplit d1 '.').headD "")).data.length > 2
            · rw [if_pos h7]; rfl
            · rw [if_neg h7]
              exact name_resolver_api_branch_isOk api email givenName
          · rw [if_neg h5]
            exact name_resolver_api_branch_isOk api email givenName

end Nbo

namespace Nbo

/-! ### services/orchestrator.py — LinkedInOrchestrator

`orchestrate_lookup` with its collaborators as an environment: the
subscriber database (existence check, cached-URL read, update), the email
classifier outcome, the Google-search cascade, and the RocketReach
provider.  Each collaborator outcome is `Except`-valued where the Python
call sits in a try/except.  The calls actually issued are traced.
-/

def invalidValues : List String :=
  ["", "none", "null", "n/a", "#n/a", "undefined", "nil", "na", "-", "unknown", "#null"]

/-- `ParamValidator.is_empty_or_invalid` on a string value. -/
def isEmptyOrInvalid (s : String) : Bool :=
  let vl := pyStrip (lowerStr s)
  invalidValues.contains vl || pyIsSpace vl

/-- `ParamValidator.validate_email`. -/
def validateEmail (email : String) : Bool :=
  if isEmptyOrInvalid email then false
  else
    let e := lowerStr (pyStrip email)
    pyInStr '@' e && pyInStr '.' ((pySplit e '@').getD 1 "")

/-- External collaborator outcomes for one orchestrated lookup. -/
structure OrchEnv where
  dbExists : Except String Bool
  dbGetUrl : Except String (Option String)
  classify : String × String
  google : Except String (Option String × Option String)
  rocket : Except String (Option String)
  dbUpdate : Except String Bool
  deriving Repr

/-- Collaborator calls the orchestrator can issue. -/
inductive OrchCall where
  | dbExists
  | dbGetUrl
  | classifier
  | googleSearch
  | rocketreach
  | dbUpdate
  deriving Repr, DecidableEq

/-- The response dictionary of `orchestrate_lookup` (timing elided). -/
structure OrchResult where
  email : String
  linkedinUrl : Option String
  success : Bool
  methodUsed : String
  domainType : String
  googleDomainUsed : Option String
  databaseFound : Bool
  databaseUpdated : Bool
  errorMessage : Option String
  deriving Repr, DecidableEq

/-- The part of `orchestrate_lookup` after the cache check: classify,
then the work-path (Google first, RocketReach fallback both on a miss
and on a Google error) or the personal-path (RocketReach directly), then
the conditional database update and the response assembly. -/
def afterDb (env : OrchEnv) (sanitized : String) (databaseFound : Bool)
    (calls : List OrchCall) : OrchResult × List OrchCall :=
  let domainType := env.classify.1
  let lu :
      Option String × Option String × Option String × Option String × List OrchCall :=
    if domainType = "work" then
      match env.google with
      | .ok (some u, dom) =>
        (some u, some "google_search", none, dom, [.googleSearch])
      | .ok (none, dom) =>
        match env.rocket with
        | .ok r =>
          (r, if r.isSome then some "rocketreach_fallback" else none, none, dom,
            [.googleSearch, .rocketreach])
        | .error e =>
          (none, none, some ("RocketReach fallback failed: " ++ e), dom,
            [.googleSearch, .rocketreach])
      | .error e =>
        match env.rocket with
        | .ok r =>
          (r, some "rocketreach_fallback", some ("Google search error: " ++ e), none,
            [.googleSearch, .rocketreach])
        | .error re =>
          (none, none, some ("Both lookup methods failed: " ++ e ++ "; " ++ re), none,
            [.googleSearch, .rocketreach])
    else
      match env.rocket with
      | .ok r => (r, some "rocketreach_primary", none, none, [.rocketreach])
      | .error e =>
        (none, none, some ("RocketReach lookup failed: " ++ e), none, [.rocketreach])
  let url := lu.1
  let methodOpt := lu.2.1
  let errMsg := lu.2.2.1
  let gdom := lu.2.2.2.1
  let lcalls := lu.2.2.2.2
  let upd : Bool × List OrchCall :=
    if url.isSome ∧ databaseFound then
      match env.dbUpdate with
      | .ok b => (b, [.dbUpdate])
      | .error _ => (false, [.dbUpdate])
    else (false, [])
  ({ email := sanitized, linkedinUrl := url, success := url.isSome,
     methodUsed := methodOpt.getD "none", domainType := domainType,
     googleDomainUsed := gdom, databaseFound := databaseFound,
     databaseUpdated := upd.1, errorMessage := errMsg },
   calls ++ [.classifier] ++ lcalls ++ upd.2)

/-- `LinkedInOrchestrator.orchestrate_lookup(email, ...)`: validate,
check the subscriber cache (returning immediately on a cached URL), then
delegate to the classification-and-lookup phase. -/
def orchestrateLookup (env : OrchEnv) (email : String) :
    OrchResult × List OrchCall :=
  if ¬ validateEmail email then
    ({ email := email, linkedinUrl := none, success := false, methodUsed := "none",
       domainType := "unknown", googleDomainUsed := none, databaseFound := false,
       databaseUpdated := false,
       errorMessage := some ("Invalid email format: " ++ email) }, [])
  else
    let sanitized := lowerStr (pyStrip email)
    match env.dbExists with
    | .ok true =>
      match env.dbGetUrl with
      | .ok (some cachedUrl) =>
        ({ email := sanitized, linkedinUrl := some cachedUrl, success := true,
           methodUsed := "database_cache", domainType := "unknown",
           googleDomainUsed := none, databaseFound := true, databaseUpdated := false,
           errorMessage := none }, [.dbExists, .dbGetUrl])
      | .ok none => afterDb env sanitized true [.dbExists, .dbGetUrl]
      | .error _ => afterDb env sanitized false [.dbExists, .dbGetUrl]
    | .ok false => afterDb env sanitized false [.dbExists]
    | .error _ => afterDb env sanitized false [.dbExists]

/-- The cache-hit condition of the database try-block. -/
def cacheHit (env : OrchEnv) : Bool :=
  match env.dbExists, env.dbGetUrl with
  | .ok true, .ok (some _) => true
  | _, _ => false

/-- The RocketReach call completed without raising. -/
def rocketOk (env : OrchEnv) : Bool :=
  match env.rocket with
  | .ok _ => true
  | .error _ => false

/-- The Google-search cascade raised. -/
def googleErrored (env : OrchEnv) : Bool :=
  match env.google with
  | .error _ => true
  | .ok _ => false

/-- The run reached the personal/unknown path and completed its
RocketReach attempt without error (this path records method
"rocketreach_primary" even when no URL is found). -/
def primaryAttemptCompleted (env : OrchEnv) (email : String) : Prop :=
  validateEmail email = true ∧ cacheHit env = false ∧
    env.classify.1 ≠ "work" ∧ rocketOk env = true

/-- The run reached the work path, Google raised, and the RocketReach
fallback completed without error (this path records method
"rocketreach_fallback" even when no URL is found). -/
def errorFallbackCompleted (env : OrchEnv) (email : String) : Prop :=
  validateEmail email = true ∧ cacheHit env = false ∧
    env.classify.1 = "work" ∧ googleErrored env = true ∧ rocketOk env = true

end Nbo

namespace Nbo

/-- C6: a lookup whose email has a cached LinkedIn URL returns success,
method "database_cache" and the cached URL, and issues no classifier,
search-cascade, or alternate-provider call. -/
theorem cache_hit_short_circuits (env : OrchEnv) (email u : String)
    (hv : validateEmail email = true)
    (hex : env.dbExists = .ok true)
    (hurl : env.dbGetUrl = .ok (some u)) :
    orchestrateLookup env email =
      ({ email := lowerStr (pyStrip email), linkedinUrl := some u, success := true,
         methodUsed := "database_cache", domainType := "unknown",
         googleDomainUsed := none, databaseFound := true, databaseUpdated := false,
         errorMessage := none }, [.dbExists, .dbGetUrl]) ∧
    OrchCall.classifier ∉ (orchestrateLookup env email).2 ∧
    OrchCall.googleSearch ∉ (orchestrateLookup env email).2 ∧
    OrchCall.rocketreach ∉ (orchestrateLookup env email).2 := by
  have hres : orchestrateLookup env email =
      ({ email := lowerStr (pyStrip email), linkedinUrl := some u, success := true,
         methodUsed := "database_cache", domainType := "unknown",
         googleDomainUsed := none, databaseFound := true, databaseUpdated := false,
         errorMessage := none }, [.dbExists, .dbGetUrl]) := by
    rw [orchestrateLookup, if_neg (by simp [hv])]
    simp only [hex, hurl]
  refine ⟨hres, ?_, ?_, ?_⟩ <;> rw [hres] <;> simp

/-- Witness for C6 at the concrete cache entry of the spec scenario. -/
theorem cache_hit_short_circuits_witness :
    orchestrateLookup
        ⟨.ok true, .ok (some "https://linkedin.com/in/x"), ("work", "y.com"),
          .ok (none, none), .ok none, .ok false⟩ "x@y.com" =
      ({ email := lowerStr (pyStrip "x@y.com"),
         linkedinUrl := some "https://linkedin.com/in/x", success := true,
         methodUsed := "database_cache", domainType := "unknown",
         googleDomainUsed := none, databaseFound := true, databaseUpdated := false,
         errorMessage := none }, [.dbExists, .dbGetUrl]) ∧
    OrchCall.classifier ∉ (orchestrateLookup
        ⟨.ok true, .ok (some "https://linkedin.com/in/x"), ("work", "y.com"),
          .ok (none, none), .ok none, .ok false⟩ "x@y.com").2 ∧
    OrchCall.googleSearch ∉ (orchestrateLookup
        ⟨.ok true, .ok (some "https://linkedin.com/in/x"), ("work", "y.com"),
          .ok (none, none), .ok none, .ok false⟩ "x@y.com").2 ∧
    OrchCall.rocketreach ∉ (orchestrateLookup
        ⟨.ok true, .ok (some "https://linkedin.com/in/x"), ("work", "y.com"),
          .ok (none, none), .ok none, .ok false⟩ "x@y.com").2 :=
  cache_hit_short_circuits
    ⟨.ok true, .ok (some "https://linkedin.com/in/x"), ("work", "y.com"),
      .ok (none, none), .ok none, .ok false⟩ "x@y.com"
    "https://linkedin.com/in/x" (by decide) rfl rfl

/-- C5 counterexample: a personal-email lookup whose alternate-provider
attempt completes without error and finds nothing reports success=false
with no error, yet method_used is "rocketreach_primary", not "none". -/
theorem method_none_counterexample :
    (orchestrateLookup ⟨.ok false, .ok none, ("personal", "gmail.com"),
        .ok (none, none), .ok none, .ok false⟩ "a@b.com").1.success = false ∧
    (orchestrateLookup ⟨.ok false, .ok none, ("personal", "gmail.com"),
        .ok (none, none), .ok none, .ok false⟩ "a@b.com").1.errorMessage = none ∧
    (orchestrateLookup ⟨.ok false, .ok none, ("personal", "gmail.com"),
        .ok (none, none), .ok none, .ok false⟩ "a@b.com").1.methodUsed
      = "rocketreach_primary" ∧
    ("rocketreach_primary" : String) ≠ "none" := by
  refine ⟨by decide, by decide, by decide, by decide⟩

theorem afterDb_method_none_iff (env : OrchEnv) (sanitized : String)
    (dbf : Bool) (calls : List OrchCall) :
    ((afterDb env sanitized dbf calls).1.methodUsed = "none")
      ↔ ((afterDb env sanitized dbf calls).1.linkedinUrl = none
          ∧ (env.classify.1 ≠ "work" → rocketOk env = false)
          ∧ (env.classify.1 = "work" → googleErrored env = true →
              rocketOk env = false)) := by
  have hfb : ("rocketreach_fallback" : String) ≠ "none" := by decide
  have hpr : ("rocketreach_primary" : String) ≠ "none" := by decide
  have hgs : ("google_search" : String) ≠ "none" := by decide
  by_cases hw : env.classify.1 = "work"
  · rcases hg : env.google with e | p
    · rcases hr : env.rocket with e2 | r
      · simp [afterDb, hw, hg, hr, rocketOk, googleErrored]
      · simp [afterDb, hw, hg, hr, rocketOk, googleErrored, hfb]
    · rcases p with ⟨u, dom⟩
      rcases u with _ | u0
      · rcases hr : env.rocket with e2 | r
        · simp [afterDb, hw, hg, hr, rocketOk, googleErrored]
        · rcases r with _ | r0
          · simp [afterDb, hw, hg, hr, rocketOk, googleErrored]
          · simp [afterDb, hw, hg, hr, rocketOk, googleErrored, hfb]
      · simp [afterDb, hw, hg, rocketOk, googleErrored, hgs]
  · rcases hr : env.rocket with e2 | r
    · simp [afterDb, hw, hr, rocketOk, googleErrored]
    · simp [afterDb, hw, hr, rocketOk, googleErrored, hpr]

/-- C5 (amended): method_used is "none" exactly when the lookup found no
URL and the run did not complete an alternate-provider call on one of
the two paths that record a method unconditionally — the personal/unknown
primary path ("rocketreach_primary") and the post-Google-error fallback
path ("rocketreach_fallback"); on those two paths a completed attempt
reports its method even with no URL and no new error. -/
theorem method_none_characterization (env : OrchEnv) (email : String) :
    ((orchestrateLookup env email).1.methodUsed = "none")
      ↔ ((orchestrateLookup env email).1.linkedinUrl = none
        ∧ ¬ primaryAttemptCompleted env email
        ∧ ¬ errorFallbackCompleted env email) := by
  by_cases hv : validateEmail email = true
  · rcases hde : env.dbExists with e | b
    · have hch : cacheHit env = false := by simp [cacheHit, hde]
      have hred : orchestrateLookup env email
          = afterDb env (lowerStr (pyStrip email)) false [.dbExists] := by
        rw [orchestrateLookup, if_neg (by simp [hv])]
        simp only [hde]
      rw [hred, afterDb_method_none_iff]
      simp [primaryAttemptCompleted, errorFallbackCompleted, hv, hch]
    · rcases b with _ | _
      · have hch : cacheHit env = false := by simp [cacheHit, hde]
        have hred : orchestrateLookup env email
            = afterDb env (lowerStr (pyStrip email)) false [.dbExists] := by
          rw [orchestrateLookup, if_neg (by simp [hv])]
          simp only [hde]
        rw [hred, afterDb_method_none_iff]
        simp [primaryAttemptCompleted, errorFallbackCompleted, hv, hch]
      · rcases hdg : env.dbGetUrl with e2 | u
        · have hch : cacheHit env = false := by simp [cacheHit, hde, hdg]
          have hred : orchestrateLookup env email
              = afterDb env (lowerStr (pyStrip email)) false [.dbExists, .dbGetUrl] := by
            rw [orchestrateLookup, if_neg (by simp [hv])]
            simp only [hde, hdg]
          rw [hred, afterDb_method_none_iff]
          simp [primaryAttemptCompleted, errorFallbackCompleted, hv, hch]
        · rcases u with _ | u0
          · have hch : cacheHit env = false := by simp [cacheHit, hde, hdg]
            have hred : orchestrateLookup env email
                = afterDb env (lowerStr (pyStrip email)) true [.dbExists, .dbGetUrl] := by
              rw [orchestrateLookup, if_neg (by simp [hv])]
              simp only [hde, hdg]
            rw [hred, afterDb_method_none_iff]
            simp [primaryAttemptCompleted, errorFallbackCompleted, hv, hch]
          · have hred : orchestrateLookup env email =
                ({ email := lowerStr (pyStrip email), linkedinUrl := some u0,
                   success := true, methodUsed := "database_cache",
                   domainType := "unknown", googleDomainUsed := none,
                   databaseFound := true, databaseUpdated := false,
                   errorMessage := none }, [.dbExists, .dbGetUrl]) := by
              rw [orchestrateLookup, if_neg (by simp [hv])]
              simp only [hde, hdg]
            rw [hred]
            have hdc : ("database_cache" : String) ≠ "none" := by decide
            simp [hdc]
  · have hred : orchestrateLookup env email =
        ({ email := email, linkedinUrl := none, success := false, methodUsed := "none",
           domainType := "unknown", googleDomainUsed := none, databaseFound := false,
           databaseUpdated := false,
           errorMessage := some ("Invalid email format: " ++ email) }, []) := by
      rw [orchestrateLookup, if_pos (by simp [hv])]
    rw [hred]
    simp [primaryAttemptCompleted, errorFallbackCompleted, hv]

end Nbo

namespace Nbo

/-! ### services/google_search.py + services/query_builder.py — cascade

`GoogleSearch.find_linkedin_profile_multi_domain` (the two-phase cascade),
`multi_domain_search` (domain loop), `query_openai` (ProfileMatcher) and
`QueryBuilder.build_query_variations`.  The per-domain page search and the
OpenAI transport are oracle functions in `CascadeEnv`.
-/

/-- A `(title, url, snippet)` search result. -/
structure Candidate where
  title : String
  url : String
  snippet : String
  deriving Repr, DecidableEq

def linkedinDomains : List String :=
  ["linkedin.com/in/", "linkedin.com/company/", "linkedin.com/posts/",
   "linkedin.com/pulse/", "linkedin.com/groups/", "eg.linkedin.com/in/",
   "linkedin.com/feed/", "linkedin.com/mwlite/"]

/-- `GoogleSearch.is_linkedin_url`. -/
def isLinkedinUrl (url : String) : Bool :=
  linkedinDomains.any (fun d => strContainsSub (lowerStr url) d)

def googleDomains : List String :=
  ["google.com", "google.de", "google.com.eg", "google.com.au"]

/-- External collaborators of the cascade: the per-domain page search
(`google_search(query, domain)`, which can raise at browser launch) and
the OpenAI matcher transport keyed by the candidate list shown to it. -/
structure CascadeEnv where
  search : String → String → Except String (List Candidate)
  transport : List Candidate → Except String String

/-- First loop of `multi_domain_search`: stop at the first domain whose
results contain a LinkedIn-looking URL; exceptions skip to the next
domain. -/
def mdsLoop1 (search : String → String → Except String (List Candidate))
    (query : String) : List String → Option (List Candidate × String)
  | [] => none
  | d :: rest =>
    match search query d with
    | .ok results =>
      if results.filter (fun r => isLinkedinUrl r.url) ≠ [] then some (results, d)
      else mdsLoop1 search query rest
    | .error _ => mdsLoop1 search query rest

/-- Second loop of `multi_domain_search`: first domain returning any
results at all; the `results` variable carries over a raised iteration. -/
def mdsLoop2 (search : String → String → Except String (List Candidate))
    (query : String) (acc : List Candidate) :
    List String → List Candidate × Option String
  | [] => (acc, none)
  | d :: rest =>
    match search query d with
    | .ok results =>
      if results ≠ [] then (results, some d) else mdsLoop2 search query results rest
    | .error _ => mdsLoop2 search query acc rest

/-- `GoogleSearch.multi_domain_search(query)`. -/
def multiDomainSearch (search : String → String → Except String (List Candidate))
    (query : String) : List Candidate × Option String :=
  match mdsLoop1 search query googleDomains with
  | some (results, d) => (results, some d)
  | none => mdsLoop2 search query [] googleDomains

/-- `GoogleSearch.query_openai(member_info, search_results)`: empty
candidate list or a transport error yields no match; a "null" response
yields no match; a response without "linkedin.com/in/" is discarded. -/
def queryOpenai (transport : List Candidate → Except String String)
    (searchResults : List Candidate) : Option String :=
  if searchResults.isEmpty then none
  else
    match transport searchResults with
    | .error _ => none
    | .ok content =>
      let linkedinUrl := pyStrip content
      if lowerStr linkedinUrl = "null" then none
      else if strContainsSub (lowerStr linkedinUrl) "linkedin.com/in/" then
        some linkedinUrl
      else none

/-- `ParamValidator.sanitize_param`. -/
def sanitizeParam : Option String → Option String
  | none => none
  | some v =>
    if isEmptyOrInvalid v then none
    else some (pyJoin " " (pySplitWs (pyStrip v)))

/-- The lookup search parameters (city is accepted but unused by the
query builder, as in the source). -/
structure SearchParams where
  email : String
  firstName : Option String
  lastName : Option String
  city : Option String
  state : Option String
  country : Option String
  deriving Repr

/-- `ParamValidator.validate_request_params`: raises on an invalid email,
otherwise sanitizes every field. -/
def validateRequestParams (p : SearchParams) : Except String SearchParams :=
  if ¬ validateEmail p.email then .error ("Invalid email format: " ++ p.email)
  else
    .ok { email := lowerStr (pyStrip p.email),
          firstName := sanitizeParam p.firstName,
          lastName := sanitizeParam p.lastName,
          city := sanitizeParam p.city,
          state := sanitizeParam p.state,
          country := sanitizeParam p.country }

/-- `QueryBuilder.build_search_query`. -/
def buildSearchQuery (p : SearchParams) : Except String String :=
  match validateRequestParams p with
  | .error e => .error e
  | .ok s =>
    let components :=
      (if s.email ≠ "" then [s.email] else []) ++
      (if pyTruthy s.firstName ∧ pyTruthy s.lastName then
        [s.firstName.getD "", s.lastName.getD ""]
       else if pyTruthy s.firstName then [s.firstName.getD ""] else []) ++
      (if pyTruthy s.state then [s.state.getD ""] else []) ++
      (if pyTruthy s.country then [s.country.getD ""] else []) ++
      ["LinkedIn"]
    .ok (pyJoin " + " components)

/-- Python `list(dict.fromkeys(l))`: first occurrences, order kept. -/
def dedupeKeepFirst (l : List String) : List String :=
  l.foldl (fun acc x => if acc.contains x then acc else acc ++ [x]) []

/-- `QueryBuilder.build_query_variations`. -/
def buildQueryVariations (p : SearchParams) : Except String (List String) :=
  match buildSearchQuery p with
  | .error e => .error e
  | .ok primary =>
    match validateRequestParams p with
    | .error e => .error e
    | .ok s =>
      let v1 :=
        if s.email ≠ "" then
          let emailOnly := s.email ++ " + LinkedIn"
          if emailOnly ≠ primary then [emailOnly] else []
        else []
      let step1 := [primary] ++ v1
      let v2 :=
        if s.email ≠ "" ∧ pyTruthy s.firstName then
          let fq := s.email ++ " + " ++ s.firstName.getD "" ++ " + LinkedIn"
          if fq ≠ primary ∧ fq ∉ step1 then [fq] else []
        else []
      let step2 := step1 ++ v2
      let v3 :=
        if s.email ≠ "" ∧ pyTruthy s.firstName ∧ pyTruthy s.lastName ∧
            (pyTruthy s.state ∨ pyTruthy s.country) then
          let locs :=
            (if pyTruthy s.state then [s.state.getD ""] else []) ++
            (if pyTruthy s.country then [s.country.getD ""] else [])
          if locs ≠ [] then
            let lq := s.email ++ " + " ++ s.firstName.getD "" ++ " + " ++
              s.lastName.getD "" ++ " + " ++ pyJoin " + " locs ++ " + LinkedIn"
            if lq ≠ primary ∧ lq ∉ step2 then [lq] else []
          else []
        else []
      let siteQuery := s.email ++ " site:linkedin.com"
      .ok (dedupeKeepFirst (step2 ++ v3 ++ [siteQuery]))

/-- The phase-2 loop of `find_linkedin_profile_multi_domain`: each query
variation except any equal to the phase-1 email query is searched across
domains and, when LinkedIn candidates appear, judged by the matcher;
the loop stops at the first accepted match. -/
def phase2Scan (env : CascadeEnv) (emailQuery : String) :
    List String → Option String × Option String
  | [] => (none, none)
  | q :: rest =>
    if q = emailQuery then phase2Scan env emailQuery rest
    else
      let sr := multiDomainSearch env.search q
      let lr := sr.1.filter (fun r => isLinkedinUrl r.url)
      match (if lr ≠ [] then queryOpenai env.transport lr else none) with
      | some u => (some u, sr.2)
      | none => phase2Scan env emailQuery rest

/-- `GoogleSearch.find_linkedin_profile_multi_domain(search_params)`. -/
def findLinkedinProfileMultiDomain (env : CascadeEnv) (params : SearchParams) :
    Except String (Option String × Option String) :=
  let email := params.email
  let emailQuery := email ++ " + LinkedIn"
  let sr := multiDomainSearch env.search emailQuery
  let linkedinResults := sr.1.filter (fun r => isLinkedinUrl r.url)
  let attempt :=
    if linkedinResults ≠ [] then queryOpenai env.transport linkedinResults else none
  match attempt with
  | some u => .ok (some u, sr.2)
  | none =>
    match buildQueryVariations params with
    | .error e => .error e
    | .ok variations => .ok (phase2Scan env emailQuery variations)

/-- One phase-2 variant fails: no LinkedIn candidate, or the matcher
declines. -/
def variantFails (env : CascadeEnv) (q : String) : Bool :=
  let lr := (multiDomainSearch env.search q).1.filter (fun r => isLinkedinUrl r.url)
  (if lr ≠ [] then queryOpenai env.transport lr else none).isNone

/-- Specification-side scan: run every variant in order through
multi-domain search and the matcher until one matches. -/
def scanFirstMatch (env : CascadeEnv) :
    List String → Option String × Option String
  | [] => (none, none)
  | q :: rest =>
    let sr := multiDomainSearch env.search q
    let lr := sr.1.filter (fun r => isLinkedinUrl r.url)
    match (if lr ≠ [] then queryOpenai env.transport lr else none) with
    | some u => (some u, sr.2)
    | none => scanFirstMatch env rest

theorem phase2Scan_eq_scanFiltered (env : CascadeEnv) (emailQuery : String)
    (vs : List String) :
    phase2Scan env emailQuery vs
      = scanFirstMatch env (vs.filter (fun q => q ≠ emailQuery)) := by
  induction vs with
  | nil => rfl
  | cons q rest ih =>
    by_cases hq : q = emailQuery
    · have hfilter : (q :: rest).filter (fun x => x ≠ emailQuery)
          = rest.filter (fun x => x ≠ emailQuery) := by
        simp [List.filter_cons, hq]
      rw [hfilter, phase2Scan, if_pos hq, ih]
    · have hfilter : (q :: rest).filter (fun x => x ≠ emailQuery)
          = q :: rest.filter (fun x => x ≠ emailQuery) := by
        simp [List.filter_cons, hq]
      rw [hfilter, phase2Scan, if_neg hq, scanFirstMatch, ih]

theorem scanFirstMatch_none_iff (env : CascadeEnv) (l : List String) :
    scanFirstMatch env l = (none, none)
      ↔ ∀ q ∈ l, variantFails env q = true := by
  induction l with
  | nil => simp [scanFirstMatch]
  | cons q rest ih =>
    rw [scanFirstMatch]
    rcases hatt : (if ((multiDomainSearch env.search q).1.filter
        (fun r => isLinkedinUrl r.url)) ≠ [] then
        queryOpenai env.transport ((multiDomainSearch env.search q).1.filter
          (fun r => isLinkedinUrl r.url)) else none) with _ | u
    · have hfail : variantFails env q = true := by
        rw [variantFails, hatt]; rfl
      simp only [hatt, ih, List.mem_cons]
      constructor
      · intro hall x hx
        rcases hx with hx | hx
        · rw [hx]; exact hfail
        · exact hall x hx
      · intro hall x hx
        exact hall x (Or.inr hx)
    · have hfail : variantFails env q = false := by
        rw [variantFails, hatt]; rfl
      simp only [hatt]
      constructor
      · intro hc
        exact absurd hc (by simp)
      · intro hall
        have hq := hall q (List.mem_cons_self q rest)
        rw [hfail] at hq
        exact absurd hq (by simp)

/-- C7: whenever phase 1 (the email-only query) produces no accepted
match — zero LinkedIn candidates or a matcher rejection — the cascade
runs phase 2: every generated query variant except those identical to
the phase-1 email query is put through multi-domain search and the
matcher in order, stopping at the first match, and a miss is returned
only once every such variant has failed. -/
theorem cascade_phase2_exhaustive
    (env : CascadeEnv) (params : SearchParams) (vs : List String)
    (hvs : buildQueryVariations params = .ok vs)
    (hph1 : (if ((multiDomainSearch env.search (params.email ++ " + LinkedIn")).1.filter
        (fun r => isLinkedinUrl r.url)) ≠ [] then
        queryOpenai env.transport
          ((multiDomainSearch env.search (params.email ++ " + LinkedIn")).1.filter
            (fun r => isLinkedinUrl r.url))
      else none) = none) :
    findLinkedinProfileMultiDomain env params
      = .ok (scanFirstMatch env
          (vs.filter (fun q => q ≠ params.email ++ " + LinkedIn"))) ∧
    ((scanFirstMatch env (vs.filter (fun q => q ≠ params.email ++ " + LinkedIn"))
        = (none, none))
      ↔ ∀ q ∈ vs.filter (fun q => q ≠ params.email ++ " + LinkedIn"),
          variantFails env q = true) := by
  constructor
  · rw [findLinkedinProfileMultiDomain]
    simp only [hph1, hvs]
    rw [phase2Scan_eq_scanFiltered]
  · exact scanFirstMatch_none_iff env _

/-- Witness for C7: a run whose searches return nothing anywhere — phase
1 finds no candidate, phase 2 scans both non-email-query variants and
returns a miss. -/
theorem cascade_phase2_exhaustive_witness :
    findLinkedinProfileMultiDomain ⟨fun _ _ => .ok [], fun _ => .ok "null"⟩
        ⟨"jane.doe@acme.com", some "Jane", none, none, none, none⟩
      = .ok (scanFirstMatch ⟨fun _ _ => .ok [], fun _ => .ok "null"⟩
          ((["jane.doe@acme.com + Jane + LinkedIn", "jane.doe@acme.com + LinkedIn",
             "jane.doe@acme.com site:linkedin.com"]).filter
            (fun q => q ≠ "jane.doe@acme.com" ++ " + LinkedIn"))) ∧
    ((scanFirstMatch ⟨fun _ _ => .ok [], fun _ => .ok "null"⟩
          ((["jane.doe@acme.com + Jane + LinkedIn", "jane.doe@acme.com + LinkedIn",
             "jane.doe@acme.com site:linkedin.com"]).filter
            (fun q => q ≠ "jane.doe@acme.com" ++ " + LinkedIn"))
        = (none, none))
      ↔ ∀ q ∈ (["jane.doe@acme.com + Jane + LinkedIn", "jane.doe@acme.com + LinkedIn",
             "jane.doe@acme.com site:linkedin.com"]).filter
            (fun q => q ≠ "jane.doe@acme.com" ++ " + LinkedIn"),
          variantFails ⟨fun _ _ => .ok [], fun _ => .ok "null"⟩ q = true) :=
  cascade_phase2_exhaustive ⟨fun _ _ => .ok [], fun _ => .ok "null"⟩
    ⟨"jane.doe@acme.com", some "Jane", none, none, none, none⟩
    ["jane.doe@acme.com + Jane + LinkedIn", "jane.doe@acme.com + LinkedIn",
     "jane.doe@acme.com site:linkedin.com"] (by with_unfolding_all rfl)
    (by with_unfolding_all rfl)

end Nbo
